import Mathlib

/-!
Shallow embedding of the LLM provider abstraction layer of the synthia
repository (`backend/ai-service/app/services/llm_manager.py` together with the
model-name configuration defaults of `backend/ai-service/app/core/config.py`),
and proofs about the routing, fallback, message-conversion, token-accounting
and retry behaviour specified for it.

The Python code is asynchronous and talks to remote provider APIs. The
embedding makes the network explicit: each completion attempt consults an
oracle `net : ProviderReq → Except Err RawResp` describing what the remote
provider would answer to a given outbound request, and every function returns,
next to its result, the list of outbound requests it actually issued, so that
theorems can speak about what was sent over the wire.
-/

namespace Synthia

/-- A chat message: a dict with keys `role` and `content`
(`List[Dict[str, str]]` element in the source). -/
structure Message where
  role : String
  content : String
deriving DecidableEq

/-- The three optional provider client handles held by `LLMManager.__init__`:
`self.openai_client`, `self.anthropic_client`, `self.groq_client`. A handle is
either present (`true`, the client was initialized from its API key) or absent
(`false`, the field stayed `None`). -/
structure Clients where
  openai_client : Bool
  anthropic_client : Bool
  groq_client : Bool
deriving DecidableEq

/-- The fields of `app.core.config.Settings` that the routing logic reads:
the per-family default model identifiers. Defaults are the ones declared in
`config.py`. -/
structure Settings where
  OPENAI_MODEL : String := "gpt-4"
  ANTHROPIC_MODEL : String := "claude-3-sonnet-20240229"
  GROQ_MODEL : String := "llama-3.3-70b-versatile"
deriving DecidableEq

/-- Generation parameters of a completion call: `temperature`, `max_tokens`
and the open-ended `**kwargs` bag. The code never computes with the
temperature, it only forwards it, so it is embedded as a rational. -/
structure Params where
  temperature : Rat
  max_tokens : Nat
  kwargs : List (String × String)
deriving DecidableEq

/-- One outbound request to a remote provider API, as assembled by an adapter:
for OpenAI and Groq this is the argument list of
`chat.completions.create(model=..., messages=..., temperature=...,
max_tokens=..., **kwargs)` (with `system = none`); for Anthropic it is the
argument list of `messages.create(model=..., max_tokens=..., temperature=...,
system=..., messages=...)` (which the source calls without `**kwargs`, so
`extra` records exactly the keyword arguments actually forwarded). -/
structure ProviderReq where
  family : String
  model : String
  messages : List Message
  system : Option String
  temperature : Rat
  max_tokens : Nat
  extra : List (String × String)
deriving DecidableEq

/-- The fields of a raw provider response that the adapters read:
`choices[0].message.content` / `content[0].text`, `usage.total_tokens`
(OpenAI, Groq), `usage.input_tokens` and `usage.output_tokens` (Anthropic),
`choices[0].finish_reason` (OpenAI, Groq) and `stop_reason` (Anthropic). -/
structure RawResp where
  content : String
  total_tokens : Nat
  input_tokens : Nat
  output_tokens : Nat
  finish_reason : String
  stop_reason : String
deriving DecidableEq

/-- The normalized completion dict returned by the adapters:
`{content, tokens, finish_reason, model, provider}`. -/
structure CompletionResult where
  content : String
  tokens : Nat
  finish_reason : String
  model : String
  provider : String
deriving DecidableEq

/-- Failures that a completion call can raise: `ValueError` with a message
(configuration errors), an API/transport failure of a provider call, and
the `tenacity.RetryError` that the retry decorator raises after its attempt
budget is exhausted, wrapping the final attempt failure. -/
inductive Err where
  | valueError (msg : String)
  | apiError (family : String) (code : Nat)
  | retryError (last : Err)
deriving DecidableEq

/-- The network oracle of one attempt: what the remote side answers
(or which failure the transport raises) for a given outbound request. -/
abbrev Net : Type := ProviderReq → Except Err RawResp

/-- Python `s.startswith(p)`, embedded on the underlying character lists. -/
def startswith (s p : String) : Bool :=
  p.data.isPrefixOf s.data

/-- The outbound request assembled by `_generate_openai`:
`chat.completions.create(model=model, messages=messages,
temperature=temperature, max_tokens=max_tokens, **kwargs)`. -/
def openaiReq (messages : List Message) (model : String) (p : Params) : ProviderReq :=
  { family := "openai", model := model, messages := messages,
    system := none, temperature := p.temperature,
    max_tokens := p.max_tokens, extra := p.kwargs }

/-- The outbound request assembled by `_generate_groq`: same call shape as
the OpenAI adapter. -/
def groqReq (messages : List Message) (model : String) (p : Params) : ProviderReq :=
  { family := "groq", model := model, messages := messages,
    system := none, temperature := p.temperature,
    max_tokens := p.max_tokens, extra := p.kwargs }

/-- `LLMManager._generate_openai`: fail fast if the client handle is absent,
otherwise call `chat.completions.create` with model, messages, temperature,
max_tokens and `**kwargs`, and normalize the response, with
`tokens = usage.total_tokens`, `provider = "openai"`. Errors propagate
unchanged. Returns the result together with the outbound requests issued. -/
def generate_openai (c : Clients) (net : Net) (messages : List Message)
    (model : String) (p : Params) :
    Except Err CompletionResult × List ProviderReq :=
  if !c.openai_client then
    (Except.error (Err.valueError "OpenAI client not initialized. Check API key."), [])
  else
    match net (openaiReq messages model p) with
    | Except.error e => (Except.error e, [openaiReq messages model p])
    | Except.ok r =>
      (Except.ok { content := r.content, tokens := r.total_tokens,
                   finish_reason := r.finish_reason, model := model,
                   provider := "openai" }, [openaiReq messages model p])

/-- `LLMManager._generate_groq`: identical shape to the OpenAI adapter, with
`provider = "groq"`. -/
def generate_groq (c : Clients) (net : Net) (messages : List Message)
    (model : String) (p : Params) :
    Except Err CompletionResult × List ProviderReq :=
  if !c.groq_client then
    (Except.error (Err.valueError "Groq client not initialized. Check API key."), [])
  else
    match net (groqReq messages model p) with
    | Except.error e => (Except.error e, [groqReq messages model p])
    | Except.ok r =>
      (Except.ok { content := r.content, tokens := r.total_tokens,
                   finish_reason := r.finish_reason, model := model,
                   provider := "groq" }, [groqReq messages model p])

/-- The message-conversion loop of `LLMManager._generate_anthropic`:
```
system_message = None
anthropic_messages = []
for msg in messages:
    if msg[role] == "system": system_message = msg[content]
    else: anthropic_messages.append({role, content})
```
`sys` and `acc` are the loop state. -/
def anthropicSplitGo (sys : Option String) (acc : List Message) :
    List Message → Option String × List Message
  | [] => (sys, acc)
  | m :: rest =>
    if m.role = "system" then anthropicSplitGo (some m.content) acc rest
    else anthropicSplitGo sys (acc ++ [m]) rest

/-- Runs the conversion loop from its initial state. -/
def anthropicSplit (messages : List Message) : Option String × List Message :=
  anthropicSplitGo none [] messages

/-- The outbound request assembled by `_generate_anthropic`:
`messages.create(model=model, max_tokens=max_tokens,
temperature=temperature, system=system_message, messages=anthropic_messages)`.
The source forwards no `**kwargs` in this call, hence `extra := []`. -/
def anthropicReq (messages : List Message) (model : String) (p : Params) : ProviderReq :=
  { family := "anthropic", model := model, messages := (anthropicSplit messages).2,
    system := (anthropicSplit messages).1, temperature := p.temperature,
    max_tokens := p.max_tokens, extra := [] }

/-- `LLMManager._generate_anthropic`: fail fast if the client handle is
absent; split the system message out of the turn list; call
`messages.create(model, max_tokens, temperature, system, messages)`, and
normalize with `tokens = usage.input_tokens + usage.output_tokens`,
`finish_reason = stop_reason`, `provider = "anthropic"`. -/
def generate_anthropic (c : Clients) (net : Net) (messages : List Message)
    (model : String) (p : Params) :
    Except Err CompletionResult × List ProviderReq :=
  if !c.anthropic_client then
    (Except.error (Err.valueError "Anthropic client not initialized. Check API key."), [])
  else
    match net (anthropicReq messages model p) with
    | Except.error e => (Except.error e, [anthropicReq messages model p])
    | Except.ok r =>
      (Except.ok { content := r.content,
                   tokens := r.input_tokens + r.output_tokens,
                   finish_reason := r.stop_reason, model := model,
                   provider := "anthropic" }, [anthropicReq messages model p])

/-- The body of `LLMManager.generate_completion` (one attempt, without the
retry decorator): prefix-based provider selection with availability check,
then the fallback chain Groq, OpenAI, Anthropic, else
`ValueError("No LLM providers initialized. Please check your API keys.")`.
The outer `try/except` logs and re-raises unchanged, so it has no effect on
the value. -/
def generate_completion_once (c : Clients) (s : Settings) (net : Net)
    (messages : List Message) (model : String) (p : Params) :
    Except Err CompletionResult × List ProviderReq :=
  if (startswith model "gpt" || startswith model "o1") && c.openai_client then
    generate_openai c net messages model p
  else if startswith model "claude" && c.anthropic_client then
    generate_anthropic c net messages model p
  else if (startswith model "llama" || startswith model "mixtral"
      || startswith model "gemma") && c.groq_client then
    generate_groq c net messages model p
  else if c.groq_client then
    let target_model :=
      if startswith model "llama" || startswith model "mixtral" then model
      else s.GROQ_MODEL
    generate_groq c net messages target_model p
  else if c.openai_client then
    let target_model := if startswith model "gpt" then model else s.OPENAI_MODEL
    generate_openai c net messages target_model p
  else if c.anthropic_client then
    let target_model := if startswith model "claude" then model else s.ANTHROPIC_MODEL
    generate_anthropic c net messages target_model p
  else
    (Except.error (Err.valueError "No LLM providers initialized. Please check your API keys."),
     [])

/-- The `tenacity.retry(stop=stop_after_attempt(3), wait=wait_exponential(...))`
combinator: attempts 0, 1 and 2 run in order; the first success is returned;
if all three fail, `RetryError` wrapping the third attempt failure is raised
(the decorator is used without `reraise=True`, so tenacity raises its wrapper,
not the original exception). The backoff wait between attempts has no effect
on values and is not modelled. Outbound requests of all attempts are
concatenated. -/
def retryThree {α : Type} (f : Nat → Except Err α × List ProviderReq) :
    Except Err α × List ProviderReq :=
  match f 0 with
  | (Except.ok a, l0) => (Except.ok a, l0)
  | (Except.error _, l0) =>
    match f 1 with
    | (Except.ok a, l1) => (Except.ok a, l0 ++ l1)
    | (Except.error _, l1) =>
      match f 2 with
      | (Except.ok a, l2) => (Except.ok a, l0 ++ l1 ++ l2)
      | (Except.error e, l2) => (Except.error (Err.retryError e), l0 ++ l1 ++ l2)

/-- `LLMManager.generate_completion` as callers see it: the attempt body
wrapped in `@retry(stop=stop_after_attempt(3), wait=wait_exponential(...))`.
The oracle is indexed by the attempt number so that distinct attempts may
observe distinct network outcomes. -/
def generate_completion (c : Clients) (s : Settings) (net : Nat → Net)
    (messages : List Message) (model : String) (p : Params) :
    Except Err CompletionResult × List ProviderReq :=
  retryThree (fun i => generate_completion_once c s (net i) messages model p)

/-- `LLMManager.is_available`: string-keyed lookup of the three client
handles, `False` for every other provider string. -/
def is_available (c : Clients) (provider : String) : Bool :=
  if provider = "openai" then c.openai_client
  else if provider = "anthropic" then c.anthropic_client
  else if provider = "groq" then c.groq_client
  else false

/-- The prefix classification used by the router to infer a model
identifier's native family, read off the three availability-checked branches
of `generate_completion`: `gpt`/`o1` map to OpenAI, `claude` to Anthropic,
`llama`/`mixtral`/`gemma` to Groq, anything else to no family. -/
def inferredFamily (model : String) : Option String :=
  if startswith model "gpt" || startswith model "o1" then some "openai"
  else if startswith model "claude" then some "anthropic"
  else if startswith model "llama" || startswith model "mixtral"
      || startswith model "gemma" then some "groq"
  else none

/-- The fixed fallback priority of the router: first Groq, then OpenAI, then
Anthropic, among the registered families; `none` when no family is
registered. -/
def fallbackFamily (c : Clients) : Option String :=
  if c.groq_client then some "groq"
  else if c.openai_client then some "openai"
  else if c.anthropic_client then some "anthropic"
  else none

/-- Each family's configured default model identifier. -/
def defaultModel (s : Settings) (family : String) : String :=
  if family = "groq" then s.GROQ_MODEL
  else if family = "openai" then s.OPENAI_MODEL
  else if family = "anthropic" then s.ANTHROPIC_MODEL
  else ""

/-- The content of the last system-role message of a list, if any. The
conversion loop of `_generate_anthropic` overwrites its `system_message`
variable on every system-role message, so this — not the first system
message — is what ends up in the outbound `system` field. -/
def lastSystem : List Message → Option String
  | [] => none
  | m :: rest =>
    match lastSystem rest with
    | some s => some s
    | none => if m.role = "system" then some m.content else none

/-- A network oracle whose provider always answers with the fixed raw
response `raw`. -/
def netOf (raw : RawResp) : Net := fun _ => Except.ok raw

/-- Sample registry: only the Groq client handle is present. -/
def clientsGroqOnly : Clients :=
  { openai_client := false, anthropic_client := false, groq_client := true }

/-- Sample registry: only the Anthropic client handle is present. -/
def clientsAnthropicOnly : Clients :=
  { openai_client := false, anthropic_client := true, groq_client := false }

/-- Sample registry: no client handle is present. -/
def clientsNone : Clients :=
  { openai_client := false, anthropic_client := false, groq_client := false }

/-- The model-name defaults declared in `config.py`. -/
def defaultSettings : Settings := {}

/-- Sample generation parameters with a non-empty `**kwargs` bag. -/
def paramsSample : Params :=
  { temperature := 7 / 10, max_tokens := 2000, kwargs := [("top_p", "0.9")] }

/-- A sample raw provider response reporting 120 input and 80 output tokens
and a combined total of 42. -/
def sampleResp : RawResp :=
  { content := "ok", total_tokens := 42, input_tokens := 120, output_tokens := 80,
    finish_reason := "stop", stop_reason := "end_turn" }

/-- Attempt-indexed oracle: every attempt succeeds with `sampleResp`. -/
def netAlwaysOk : Nat → Net := fun _ => netOf sampleResp

/-- Attempt-indexed oracle: every attempt fails with the same API error. -/
def netAlwaysDown : Nat → Net := fun _ _ => Except.error (Err.apiError "net" 500)

/-- A one-element user message list. -/
def msgU : List Message := [{ role := "user", content := "U" }]

/-- The message list of the multiple-system-messages scenario. -/
def msgTwoSystems : List Message :=
  [{ role := "system", content := "S1" }, { role := "system", content := "S2" },
   { role := "user", content := "U" }]

/-- The message list of the single-system-message extraction scenario. -/
def msgSystemFirst : List Message :=
  [{ role := "system", content := "S" }, { role := "user", content := "U1" },
   { role := "assistant", content := "A1" }, { role := "user", content := "U2" }]

/-- A string cannot start with two prefixes of which neither is a prefix of
the other. -/
theorem startswith_disjoint {p1 p2 : String}
    (h12 : p1.data.isPrefixOf p2.data = false)
    (h21 : p2.data.isPrefixOf p1.data = false)
    (s : String) (h1 : startswith s p1 = true) : startswith s p2 = false := by
  unfold startswith at h1 ⊢
  by_contra h2
  rw [Bool.not_eq_false] at h2
  rw [List.isPrefixOf_iff_prefix] at h1 h2
  rcases List.prefix_or_prefix_of_prefix h1 h2 with h | h
  · rw [← List.isPrefixOf_iff_prefix] at h
    rw [h] at h12
    exact Bool.true_eq_false.mp h12
  · rw [← List.isPrefixOf_iff_prefix] at h
    rw [h] at h21
    exact Bool.true_eq_false.mp h21

/-- A model identifier in the OpenAI prefix group matches no other group. -/
theorem openai_group_noclash (model : String)
    (h : (startswith model "gpt" || startswith model "o1") = true) :
    startswith model "claude" = false ∧ startswith model "llama" = false ∧
    startswith model "mixtral" = false ∧ startswith model "gemma" = false := by
  rcases (Bool.or_eq_true _ _).mp h with hg | ho
  · exact ⟨startswith_disjoint (by decide) (by decide) model hg,
      startswith_disjoint (by decide) (by decide) model hg,
      startswith_disjoint (by decide) (by decide) model hg,
      startswith_disjoint (by decide) (by decide) model hg⟩
  · exact ⟨startswith_disjoint (by decide) (by decide) model ho,
      startswith_disjoint (by decide) (by decide) model ho,
      startswith_disjoint (by decide) (by decide) model ho,
      startswith_disjoint (by decide) (by decide) model ho⟩

/-- A model identifier starting with `claude` matches no Groq prefix. -/
theorem anthropic_group_noclash (model : String)
    (h : startswith model "claude" = true) :
    startswith model "llama" = false ∧ startswith model "mixtral" = false ∧
    startswith model "gemma" = false :=
  ⟨startswith_disjoint (by decide) (by decide) model h,
   startswith_disjoint (by decide) (by decide) model h,
   startswith_disjoint (by decide) (by decide) model h⟩

/-- If the first attempt succeeds, the retried call is that attempt. -/
theorem retryThree_first_ok {α : Type} (f : Nat → Except Err α × List ProviderReq)
    (a : α) (reqs : List ProviderReq) (h : f 0 = (Except.ok a, reqs)) :
    retryThree f = (Except.ok a, reqs) := by
  unfold retryThree
  rw [h]

/-- A successful retried call comes from a successful attempt, and every
outbound request of that attempt is among the outbound requests of the whole
call. -/
theorem retryThree_ok {α : Type} (f : Nat → Except Err α × List ProviderReq)
    (a : α) (h : (retryThree f).1 = Except.ok a) :
    ∃ j reqs, f j = (Except.ok a, reqs) ∧ ∀ x ∈ reqs, x ∈ (retryThree f).2 := by
  rcases h0 : f 0 with ⟨r0, l0⟩
  cases r0 with
  | ok a0 =>
    have he : retryThree f = (Except.ok a0, l0) := by unfold retryThree; rw [h0]
    rw [he] at h
    simp only [Except.ok.injEq] at h
    subst h
    exact ⟨0, l0, h0, fun x hx => by rw [he]; exact hx⟩
  | error e0 =>
    rcases h1 : f 1 with ⟨r1, l1⟩
    cases r1 with
    | ok a1 =>
      have he : retryThree f = (Except.ok a1, l0 ++ l1) := by
        unfold retryThree; rw [h0, h1]
      rw [he] at h
      simp only [Except.ok.injEq] at h
      subst h
      exact ⟨1, l1, h1, fun x hx => by
        rw [he]; exact List.mem_append.mpr (Or.inr hx)⟩
    | error e1 =>
      rcases h2 : f 2 with ⟨r2, l2⟩
      cases r2 with
      | ok a2 =>
        have he : retryThree f = (Except.ok a2, l0 ++ l1 ++ l2) := by
          unfold retryThree; rw [h0, h1, h2]
        rw [he] at h
        simp only [Except.ok.injEq] at h
        subst h
        exact ⟨2, l2, h2, fun x hx => by
          rw [he]; exact List.mem_append.mpr (Or.inr hx)⟩
      | error e2 =>
        have he : retryThree f = (Except.error (Err.retryError e2), l0 ++ l1 ++ l2) := by
          unfold retryThree; rw [h0, h1, h2]
        rw [he] at h
        exact absurd h (by simp)

/-- A property of every outbound request of every attempt holds for every
outbound request of the retried call. -/
theorem retryThree_reqs {α : Type} {P : ProviderReq → Prop}
    (f : Nat → Except Err α × List ProviderReq)
    (hP : ∀ i, ∀ x ∈ (f i).2, P x) :
    ∀ x ∈ (retryThree f).2, P x := by
  intro x hx
  have hP0 : ∀ y ∈ (f 0).2, P y := hP 0
  have hP1 : ∀ y ∈ (f 1).2, P y := hP 1
  have hP2 : ∀ y ∈ (f 2).2, P y := hP 2
  rcases h0 : f 0 with ⟨r0, l0⟩
  rw [h0] at hP0
  cases r0 with
  | ok a0 =>
    have he : retryThree f = (Except.ok a0, l0) := by unfold retryThree; rw [h0]
    rw [he] at hx
    exact hP0 x hx
  | error e0 =>
    rcases h1 : f 1 with ⟨r1, l1⟩
    rw [h1] at hP1
    cases r1 with
    | ok a1 =>
      have he : retryThree f = (Except.ok a1, l0 ++ l1) := by
        unfold retryThree; rw [h0, h1]
      rw [he] at hx
      rcases List.mem_append.mp hx with hm | hm
      · exact hP0 x hm
      · exact hP1 x hm
    | error e1 =>
      rcases h2 : f 2 with ⟨r2, l2⟩
      rw [h2] at hP2
      cases r2 with
      | ok a2 =>
        have he : retryThree f = (Except.ok a2, l0 ++ l1 ++ l2) := by
          unfold retryThree; rw [h0, h1, h2]
        rw [he] at hx
        rcases List.mem_append.mp hx with hm | hm
        · rcases List.mem_append.mp hm with hm2 | hm2
          · exact hP0 x hm2
          · exact hP1 x hm2
        · exact hP2 x hm
      | error e2 =>
        have he : retryThree f = (Except.error (Err.retryError e2), l0 ++ l1 ++ l2) := by
          unfold retryThree; rw [h0, h1, h2]
        rw [he] at hx
        rcases List.mem_append.mp hx with hm | hm
        · rcases List.mem_append.mp hm with hm2 | hm2
          · exact hP0 x hm2
          · exact hP1 x hm2
        · exact hP2 x hm

/-- Equation for the OpenAI adapter when its client is present and the
provider answers `raw`. -/
theorem generate_openai_netOf (c : Clients) (raw : RawResp)
    (messages : List Message) (model : String) (p : Params)
    (hc : c.openai_client = true) :
    generate_openai c (netOf raw) messages model p =
      (Except.ok { content := raw.content, tokens := raw.total_tokens,
                   finish_reason := raw.finish_reason, model := model,
                   provider := "openai" }, [openaiReq messages model p]) := by
  simp [generate_openai, netOf, hc]

/-- Equation for the Groq adapter when its client is present and the
provider answers `raw`. -/
theorem generate_groq_netOf (c : Clients) (raw : RawResp)
    (messages : List Message) (model : String) (p : Params)
    (hc : c.groq_client = true) :
    generate_groq c (netOf raw) messages model p =
      (Except.ok { content := raw.content, tokens := raw.total_tokens,
                   finish_reason := raw.finish_reason, model := model,
                   provider := "groq" }, [groqReq messages model p]) := by
  simp [generate_groq, netOf, hc]

/-- Equation for the Anthropic adapter when its client is present and the
provider answers `raw`: the canonical token count is the sum of the reported
input and output counts, and the stop reason is passed through. -/
theorem generate_anthropic_netOf (c : Clients) (raw : RawResp)
    (messages : List Message) (model : String) (p : Params)
    (hc : c.anthropic_client = true) :
    generate_anthropic c (netOf raw) messages model p =
      (Except.ok { content := raw.content,
                   tokens := raw.input_tokens + raw.output_tokens,
                   finish_reason := raw.stop_reason, model := model,
                   provider := "anthropic" }, [anthropicReq messages model p]) := by
  simp [generate_anthropic, netOf, hc]

/-- A result from the OpenAI adapter means its client was present, the
result is tagged `openai` with the invoked model, and exactly the one
outbound OpenAI-shaped request was issued. -/
theorem generate_openai_ok (c : Clients) (net : Net) (messages : List Message)
    (model : String) (p : Params) (r : CompletionResult)
    (h : (generate_openai c net messages model p).1 = Except.ok r) :
    c.openai_client = true ∧ r.provider = "openai" ∧ r.model = model ∧
    (generate_openai c net messages model p).2 = [openaiReq messages model p] := by
  by_cases hc : c.openai_client = true
  · cases hnet : net (openaiReq messages model p) with
    | error e =>
      unfold generate_openai at h
      rw [hc, hnet] at h
      simp at h
    | ok raw =>
      unfold generate_openai at h
      rw [hc, hnet] at h
      simp only [Bool.not_true, Bool.false_eq_true, if_false, Except.ok.injEq] at h
      subst h
      exact ⟨hc, rfl, rfl, by simp [generate_openai, hc, hnet]⟩
  · rw [Bool.not_eq_true] at hc
    unfold generate_openai at h
    rw [hc] at h
    simp at h

/-- A result from the Groq adapter means its client was present, the result
is tagged `groq` with the invoked model, and exactly the one outbound
Groq-shaped request was issued. -/
theorem generate_groq_ok (c : Clients) (net : Net) (messages : List Message)
    (model : String) (p : Params) (r : CompletionResult)
    (h : (generate_groq c net messages model p).1 = Except.ok r) :
    c.groq_client = true ∧ r.provider = "groq" ∧ r.model = model ∧
    (generate_groq c net messages model p).2 = [groqReq messages model p] := by
  by_cases hc : c.groq_client = true
  · cases hnet : net (groqReq messages model p) with
    | error e =>
      unfold generate_groq at h
      rw [hc, hnet] at h
      simp at h
    | ok raw =>
      unfold generate_groq at h
      rw [hc, hnet] at h
      simp only [Bool.not_true, Bool.false_eq_true, if_false, Except.ok.injEq] at h
      subst h
      exact ⟨hc, rfl, rfl, by simp [generate_groq, hc, hnet]⟩
  · rw [Bool.not_eq_true] at hc
    unfold generate_groq at h
    rw [hc] at h
    simp at h

/-- A result from the Anthropic adapter means its client was present, the
result is tagged `anthropic` with the invoked model, and exactly the one
outbound Anthropic-shaped request was issued. -/
theorem generate_anthropic_ok (c : Clients) (net : Net) (messages : List Message)
    (model : String) (p : Params) (r : CompletionResult)
    (h : (generate_anthropic c net messages model p).1 = Except.ok r) :
    c.anthropic_client = true ∧ r.provider = "anthropic" ∧ r.model = model ∧
    (generate_anthropic c net messages model p).2 = [anthropicReq messages model p] := by
  by_cases hc : c.anthropic_client = true
  · cases hnet : net (anthropicReq messages model p) with
    | error e =>
      unfold generate_anthropic at h
      rw [hc, hnet] at h
      simp at h
    | ok raw =>
      unfold generate_anthropic at h
      rw [hc, hnet] at h
      simp only [Bool.not_true, Bool.false_eq_true, if_false, Except.ok.injEq] at h
      subst h
      exact ⟨hc, rfl, rfl, by simp [generate_anthropic, hc, hnet]⟩
  · rw [Bool.not_eq_true] at hc
    unfold generate_anthropic at h
    rw [hc] at h
    simp at h

/-- A first attempt whose result component succeeds makes the retried call
succeed with the same result. -/
theorem retryThree_first_ok_fst {α : Type} (f : Nat → Except Err α × List ProviderReq)
    (a : α) (h : (f 0).1 = Except.ok a) : (retryThree f).1 = Except.ok a := by
  rcases h0 : f 0 with ⟨r0, l0⟩
  rw [h0] at h
  simp only at h
  subst h
  rw [retryThree_first_ok f a l0 h0]

/-- Every outbound request of the OpenAI adapter is its one request shape. -/
theorem generate_openai_reqs (c : Clients) (net : Net) (messages : List Message)
    (model : String) (p : Params) :
    ∀ req ∈ (generate_openai c net messages model p).2,
      req = openaiReq messages model p := by
  intro req hreq
  unfold generate_openai at hreq
  by_cases hc : c.openai_client = true
  · rw [hc] at hreq
    cases hnet : net (openaiReq messages model p) <;> rw [hnet] at hreq <;>
      simpa using hreq
  · rw [Bool.not_eq_true] at hc
    rw [hc] at hreq
    simp at hreq

/-- Every outbound request of the Groq adapter is its one request shape. -/
theorem generate_groq_reqs (c : Clients) (net : Net) (messages : List Message)
    (model : String) (p : Params) :
    ∀ req ∈ (generate_groq c net messages model p).2,
      req = groqReq messages model p := by
  intro req hreq
  unfold generate_groq at hreq
  by_cases hc : c.groq_client = true
  · rw [hc] at hreq
    cases hnet : net (groqReq messages model p) <;> rw [hnet] at hreq <;>
      simpa using hreq
  · rw [Bool.not_eq_true] at hc
    rw [hc] at hreq
    simp at hreq

/-- Every outbound request of the Anthropic adapter is its one request
shape. -/
theorem generate_anthropic_reqs (c : Clients) (net : Net) (messages : List Message)
    (model : String) (p : Params) :
    ∀ req ∈ (generate_anthropic c net messages model p).2,
      req = anthropicReq messages model p := by
  intro req hreq
  unfold generate_anthropic at hreq
  by_cases hc : c.anthropic_client = true
  · rw [hc] at hreq
    cases hnet : net (anthropicReq messages model p) <;> rw [hnet] at hreq <;>
      simpa using hreq
  · rw [Bool.not_eq_true] at hc
    rw [hc] at hreq
    simp at hreq

/-- A result of one routing attempt carries a provider tag whose client
handle is registered, and some outbound request of the attempt has exactly
the family and model recorded in the result. -/
theorem generate_completion_once_ok (c : Clients) (s : Settings) (net : Net)
    (messages : List Message) (model : String) (p : Params) (r : CompletionResult)
    (h : (generate_completion_once c s net messages model p).1 = Except.ok r) :
    is_available c r.provider = true ∧
    ∃ req ∈ (generate_completion_once c s net messages model p).2,
      req.family = r.provider ∧ req.model = r.model := by
  unfold generate_completion_once at h ⊢
  by_cases h1 : ((startswith model "gpt" || startswith model "o1") && c.openai_client) = true
  · rw [if_pos h1] at h ⊢
    obtain ⟨hcl, hprov, hmod, hreqs⟩ := generate_openai_ok c net messages model p r h
    refine ⟨by rw [hprov]; simp [is_available, hcl], ?_⟩
    rw [hreqs]
    exact ⟨openaiReq messages model p, List.mem_singleton_self _,
      by rw [hprov]; rfl, by rw [hmod]; rfl⟩
  · rw [if_neg h1] at h ⊢
    by_cases h2 : (startswith model "claude" && c.anthropic_client) = true
    · rw [if_pos h2] at h ⊢
      obtain ⟨hcl, hprov, hmod, hreqs⟩ := generate_anthropic_ok c net messages model p r h
      refine ⟨by rw [hprov]; simp [is_available, hcl], ?_⟩
      rw [hreqs]
      exact ⟨anthropicReq messages model p, List.mem_singleton_self _,
        by rw [hprov]; rfl, by rw [hmod]; rfl⟩
    · rw [if_neg h2] at h ⊢
      by_cases h3 : ((startswith model "llama" || startswith model "mixtral"
          || startswith model "gemma") && c.groq_client) = true
      · rw [if_pos h3] at h ⊢
        obtain ⟨hcl, hprov, hmod, hreqs⟩ := generate_groq_ok c net messages model p r h
        refine ⟨by rw [hprov]; simp [is_available, hcl], ?_⟩
        rw [hreqs]
        exact ⟨groqReq messages model p, List.mem_singleton_self _,
          by rw [hprov]; rfl, by rw [hmod]; rfl⟩
      · rw [if_neg h3] at h ⊢
        by_cases h4 : c.groq_client = true
        · rw [if_pos h4] at h ⊢
          obtain ⟨hcl, hprov, hmod, hreqs⟩ := generate_groq_ok c net messages _ p r h
          refine ⟨by rw [hprov]; simp [is_available, hcl], ?_⟩
          rw [hreqs]
          exact ⟨_, List.mem_singleton_self _, by rw [hprov]; rfl, by rw [hmod]; rfl⟩
        · rw [if_neg h4] at h ⊢
          by_cases h5 : c.openai_client = true
          · rw [if_pos h5] at h ⊢
            obtain ⟨hcl, hprov, hmod, hreqs⟩ := generate_openai_ok c net messages _ p r h
            refine ⟨by rw [hprov]; simp [is_available, hcl], ?_⟩
            rw [hreqs]
            exact ⟨_, List.mem_singleton_self _, by rw [hprov]; rfl, by rw [hmod]; rfl⟩
          · rw [if_neg h5] at h ⊢
            by_cases h6 : c.anthropic_client = true
            · rw [if_pos h6] at h ⊢
              obtain ⟨hcl, hprov, hmod, hreqs⟩ := generate_anthropic_ok c net messages _ p r h
              refine ⟨by rw [hprov]; simp [is_available, hcl], ?_⟩
              rw [hreqs]
              exact ⟨_, List.mem_singleton_self _, by rw [hprov]; rfl, by rw [hmod]; rfl⟩
            · rw [if_neg h6] at h
              simp at h

/-- Every outbound request of one routing attempt forwards `temperature` and
`max_tokens` unchanged; the `**kwargs` bag is forwarded unchanged by the
OpenAI-shaped and Groq-shaped calls and dropped by the Anthropic-shaped
call. -/
theorem generate_completion_once_reqs (c : Clients) (s : Settings) (net : Net)
    (messages : List Message) (model : String) (p : Params) :
    ∀ req ∈ (generate_completion_once c s net messages model p).2,
      req.temperature = p.temperature ∧ req.max_tokens = p.max_tokens ∧
      (req.family = "anthropic" → req.extra = []) ∧
      (req.family ≠ "anthropic" → req.extra = p.kwargs) := by
  intro req hreq
  unfold generate_completion_once at hreq
  by_cases h1 : ((startswith model "gpt" || startswith model "o1") && c.openai_client) = true
  · rw [if_pos h1] at hreq
    rw [generate_openai_reqs c net messages model p req hreq]
    exact ⟨rfl, rfl, fun hf => by simp [openaiReq] at hf, fun _ => rfl⟩
  · rw [if_neg h1] at hreq
    by_cases h2 : (startswith model "claude" && c.anthropic_client) = true
    · rw [if_pos h2] at hreq
      rw [generate_anthropic_reqs c net messages model p req hreq]
      exact ⟨rfl, rfl, fun _ => rfl, fun hf => absurd rfl hf⟩
    · rw [if_neg h2] at hreq
      by_cases h3 : ((startswith model "llama" || startswith model "mixtral"
          || startswith model "gemma") && c.groq_client) = true
      · rw [if_pos h3] at hreq
        rw [generate_groq_reqs c net messages model p req hreq]
        exact ⟨rfl, rfl, fun hf => by simp [groqReq] at hf, fun _ => rfl⟩
      · rw [if_neg h3] at hreq
        by_cases h4 : c.groq_client = true
        · rw [if_pos h4] at hreq
          rw [generate_groq_reqs c net messages _ p req hreq]
          exact ⟨rfl, rfl, fun hf => by simp [groqReq] at hf, fun _ => rfl⟩
        · rw [if_neg h4] at hreq
          by_cases h5 : c.openai_client = true
          · rw [if_pos h5] at hreq
            rw [generate_openai_reqs c net messages _ p req hreq]
            exact ⟨rfl, rfl, fun hf => by simp [openaiReq] at hf, fun _ => rfl⟩
          · rw [if_neg h5] at hreq
            by_cases h6 : c.anthropic_client = true
            · rw [if_pos h6] at hreq
              rw [generate_anthropic_reqs c net messages _ p req hreq]
              exact ⟨rfl, rfl, fun _ => rfl, fun hf => absurd rfl hf⟩
            · rw [if_neg h6] at hreq
              simp at hreq

/-- All three attempts failing surfaces `RetryError` around the third
failure, with the outbound requests of the three attempts concatenated. -/
theorem retryThree_exhausted {α : Type} (f : Nat → Except Err α × List ProviderReq)
    (e0 e1 e2 : Err) (l0 l1 l2 : List ProviderReq)
    (h0 : f 0 = (Except.error e0, l0)) (h1 : f 1 = (Except.error e1, l1))
    (h2 : f 2 = (Except.error e2, l2)) :
    retryThree f = (Except.error (Err.retryError e2), l0 ++ l1 ++ l2) := by
  unfold retryThree
  rw [h0, h1, h2]

/-- Evaluation of one routing attempt in the fallback situation: when all
three availability-checked branches fail and the keep-model conditions of the
reachable fallback branches are false, the attempt succeeds via the first
registered family in the order Groq, OpenAI, Anthropic, invoking that
family with its configured default model. -/
theorem fallback_eval (c : Clients) (s : Settings) (raw : RawResp)
    (messages : List Message) (model : String) (p : Params) (fam : String)
    (hfb : fallbackFamily c = some fam)
    (hcond1 : ((startswith model "gpt" || startswith model "o1") && c.openai_client) = false)
    (hcond2 : (startswith model "claude" && c.anthropic_client) = false)
    (hcond3 : ((startswith model "llama" || startswith model "mixtral"
        || startswith model "gemma") && c.groq_client) = false)
    (hkg : c.groq_client = true → (startswith model "llama" || startswith model "mixtral") = false)
    (hko : c.openai_client = true → startswith model "gpt" = false)
    (hka : c.anthropic_client = true → startswith model "claude" = false) :
    Except.map (fun r => (r.model, r.provider))
      (generate_completion_once c s (netOf raw) messages model p).1 =
      Except.ok (defaultModel s fam, fam) := by
  unfold generate_completion_once
  rw [if_neg (by simp [hcond1]), if_neg (by simp [hcond2]), if_neg (by simp [hcond3])]
  unfold fallbackFamily at hfb
  by_cases hg : c.groq_client = true
  · rw [if_pos hg] at hfb
    have hfam : fam = "groq" := by
      have := hfb
      simp only [Option.some.injEq] at this
      exact this.symm
    subst hfam
    rw [if_pos hg, hkg hg]
    simp only [Bool.false_eq_true, if_false]
    rw [generate_groq_netOf c raw messages s.GROQ_MODEL p hg]
    simp [defaultModel, Except.map]
  · rw [if_neg hg] at hfb
    have hgf : c.groq_client = false := by rwa [Bool.not_eq_true] at hg
    by_cases ho : c.openai_client = true
    · rw [if_pos ho] at hfb
      have hfam : fam = "openai" := by
        have := hfb
        simp only [Option.some.injEq] at this
        exact this.symm
      subst hfam
      rw [if_neg hg, if_pos ho, hko ho]
      simp only [Bool.false_eq_true, if_false]
      rw [generate_openai_netOf c raw messages s.OPENAI_MODEL p ho]
      simp [defaultModel, Except.map]
    · rw [if_neg ho] at hfb
      by_cases ha : c.anthropic_client = true
      · rw [if_pos ha] at hfb
        have hfam : fam = "anthropic" := by
          have := hfb
          simp only [Option.some.injEq] at this
          exact this.symm
        subst hfam
        rw [if_neg hg, if_neg ho, if_pos ha, hka ha]
        simp only [Bool.false_eq_true, if_false]
        rw [generate_anthropic_netOf c raw messages s.ANTHROPIC_MODEL p ha]
        simp [defaultModel, Except.map]
      · rw [if_neg ha] at hfb
        simp at hfb

/-- The conversion loop of `_generate_anthropic`, characterized: the final
system field is the content of the last system-role message (or the initial
state when there is none), and the turn list is the initial accumulator
followed by the non-system messages in order. -/
theorem anthropicSplitGo_spec (messages : List Message) :
    ∀ (sys : Option String) (acc : List Message),
      anthropicSplitGo sys acc messages =
        ((match lastSystem messages with
          | some t => some t
          | none => sys),
         acc ++ messages.filter (fun m => !(m.role == "system"))) := by
  induction messages with
  | nil => intro sys acc; simp [anthropicSplitGo, lastSystem]
  | cons m rest ih =>
    intro sys acc
    by_cases hm : m.role = "system"
    · rw [anthropicSplitGo, if_pos hm, ih]
      rw [lastSystem]
      have hfilter : (m :: rest).filter (fun m => !(m.role == "system")) =
          rest.filter (fun m => !(m.role == "system")) := by
        simp [List.filter, hm]
      rw [hfilter]
      cases hls : lastSystem rest with
      | some t => simp
      | none => simp [hm]
    · rw [anthropicSplitGo, if_neg hm, ih]
      rw [lastSystem]
      have hb : (m.role == "system") = false := by simpa using hm
      have hfilter : (m :: rest).filter (fun m => !(m.role == "system")) =
          m :: rest.filter (fun m => !(m.role == "system")) := by
        simp [List.filter_cons, hb]
      rw [hfilter]
      cases hls : lastSystem rest with
      | some t => simp
      | none => simp [hm]

/-- The conversion applied from the initial loop state: last system message
wins, all system-role messages are excluded from the turn list. -/
theorem anthropicSplit_spec (messages : List Message) :
    anthropicSplit messages =
      (lastSystem messages,
       messages.filter (fun m => !(m.role == "system"))) := by
  unfold anthropicSplit
  rw [anthropicSplitGo_spec]
  cases hls : lastSystem messages <;> simp

/-- The left disjunct of a false Bool disjunction is false. -/
theorem bool_or_false_left {a b : Bool} (h : (a || b) = false) : a = false := by
  cases a <;> simp_all

/-- Claim C1: every completion call that returns a result carries a provider
tag whose client handle is currently registered, and the result carries the
family and model of an outbound request actually issued — not necessarily the
requested values. -/
theorem claim_C1_result_reflects_invocation (c : Clients) (s : Settings)
    (net : Nat → Net) (messages : List Message) (model : String) (p : Params)
    (r : CompletionResult) (_hne : messages ≠ [])
    (hok : (generate_completion c s net messages model p).1 = Except.ok r) :
    is_available c r.provider = true ∧
    ((generate_completion c s net messages model p).2.any
      (fun req => req.family == r.provider && req.model == r.model)) = true := by
  obtain ⟨j, reqs, hj, hsub⟩ :=
    retryThree_ok (fun i => generate_completion_once c s (net i) messages model p) r hok
  obtain ⟨hav, req, hmem, hfam, hmod⟩ :=
    generate_completion_once_ok c s (net j) messages model p r (congrArg Prod.fst hj)
  refine ⟨hav, List.any_eq_true.mpr ⟨req, ?_, ?_⟩⟩
  · have hreqs : (generate_completion_once c s (net j) messages model p).2 = reqs :=
      congrArg Prod.snd hj
    exact hsub req (hreqs ▸ hmem)
  · rw [hfam, hmod]
    simp

/-- Concrete instance of C1: a fallback call with only Groq registered. -/
theorem claim_C1_result_reflects_invocation_witness :
    is_available clientsGroqOnly "groq" = true ∧
    ((generate_completion clientsGroqOnly defaultSettings netAlwaysOk msgU
        "gpt-4" paramsSample).2.any
      (fun req => req.family == "groq" && req.model == "llama-3.3-70b-versatile")) = true :=
  claim_C1_result_reflects_invocation clientsGroqOnly defaultSettings netAlwaysOk msgU
    "gpt-4" paramsSample
    { content := "ok", tokens := 42, finish_reason := "stop",
      model := "llama-3.3-70b-versatile", provider := "groq" }
    (by decide) rfl

/-- Claim C2: when the requested identifier matches no registered family
(unregistered inferred family or no known prefix) and some family is
registered, the call succeeds via the first registered family in the fixed
order Groq, OpenAI, Anthropic, and the result model is that family default
identifier. -/
theorem claim_C2_fallback_default_model (c : Clients) (s : Settings) (raw : RawResp)
    (messages : List Message) (model : String) (p : Params) (fam : String)
    (hinf : Option.all (fun g => !is_available c g) (inferredFamily model) = true)
    (hfb : fallbackFamily c = some fam) :
    Except.map (fun r => (r.model, r.provider))
      (generate_completion c s (fun _ => netOf raw) messages model p).1 =
      Except.ok (defaultModel s fam, fam) := by
  have main :
      Except.map (fun r => (r.model, r.provider))
        (generate_completion_once c s (netOf raw) messages model p).1 =
        Except.ok (defaultModel s fam, fam) := by
    by_cases h1 : (startswith model "gpt" || startswith model "o1") = true
    · have hiF : inferredFamily model = some "openai" := by
        unfold inferredFamily; rw [if_pos h1]
      rw [hiF] at hinf
      have hoav : c.openai_client = false := by
        simpa [Option.all, is_available] using hinf
      obtain ⟨hc1, hc2, hc3, hc4⟩ := openai_group_noclash model h1
      exact fallback_eval c s raw messages model p fam hfb
        (by rw [hoav]; simp) (by rw [hc1]; simp) (by rw [hc2, hc3, hc4]; simp)
        (fun _ => by rw [hc2, hc3]; rfl)
        (fun hcl => absurd (hoav.symm.trans hcl) (by simp))
        (fun _ => hc1)
    · have h1f : (startswith model "gpt" || startswith model "o1") = false := by
        rwa [Bool.not_eq_true] at h1
      by_cases h2 : startswith model "claude" = true
      · have hiF : inferredFamily model = some "anthropic" := by
          unfold inferredFamily; rw [if_neg (by simp [h1f]), if_pos h2]
        rw [hiF] at hinf
        have haav : c.anthropic_client = false := by
          simpa [Option.all, is_available] using hinf
        obtain ⟨hc1, hc2, hc3⟩ := anthropic_group_noclash model h2
        exact fallback_eval c s raw messages model p fam hfb
          (by rw [h1f]; simp) (by rw [haav]; simp) (by rw [hc1, hc2, hc3]; simp)
          (fun _ => by rw [hc1, hc2]; rfl)
          (fun _ => bool_or_false_left h1f)
          (fun hcl => absurd (haav.symm.trans hcl) (by simp))
      · have h2f : startswith model "claude" = false := by
          rwa [Bool.not_eq_true] at h2
        by_cases h3 : (startswith model "llama" || startswith model "mixtral"
            || startswith model "gemma") = true
        · have hiF : inferredFamily model = some "groq" := by
            unfold inferredFamily
            rw [if_neg (by simp [h1f]), if_neg (by simp [h2f]), if_pos h3]
          rw [hiF] at hinf
          have hgav : c.groq_client = false := by
            simpa [Option.all, is_available] using hinf
          exact fallback_eval c s raw messages model p fam hfb
            (by rw [h1f]; simp) (by rw [h2f]; simp) (by rw [hgav]; simp)
            (fun hcl => absurd (hgav.symm.trans hcl) (by simp))
            (fun _ => bool_or_false_left h1f)
            (fun _ => h2f)
        · have h3f : (startswith model "llama" || startswith model "mixtral"
              || startswith model "gemma") = false := by
            rwa [Bool.not_eq_true] at h3
          exact fallback_eval c s raw messages model p fam hfb
            (by rw [h1f]; simp) (by rw [h2f]; simp) (by rw [h3f]; simp)
            (fun _ => bool_or_false_left h3f)
            (fun _ => bool_or_false_left h1f)
            (fun _ => h2f)
  rcases hx : (generate_completion_once c s (netOf raw) messages model p).1 with e | r
  · rw [hx] at main
    simp [Except.map] at main
  · rw [hx] at main
    simp only [Except.map, Except.ok.injEq, Prod.mk.injEq] at main
    have hfull : (generate_completion c s (fun _ => netOf raw) messages model p).1 =
        Except.ok r :=
      retryThree_first_ok_fst (fun i => generate_completion_once c s (netOf raw) messages model p) r hx
    rw [hfull]
    simp [Except.map, main.1, main.2]

/-- Concrete instance of C2: `gpt-4` requested with only Groq registered
falls back to the Groq default model. -/
theorem claim_C2_fallback_default_model_witness :
    Except.map (fun (r : CompletionResult) => (r.model, r.provider))
      (generate_completion clientsGroqOnly defaultSettings (fun _ => netOf sampleResp)
        msgU "gpt-4" paramsSample).1 =
      Except.ok ("llama-3.3-70b-versatile", "groq") :=
  claim_C2_fallback_default_model clientsGroqOnly defaultSettings sampleResp msgU
    "gpt-4" paramsSample "groq" (by decide) rfl

/-- Claim C3: a request whose prefix-inferred family is registered is routed
to that family with the model identifier passed through unchanged. -/
theorem claim_C3_registered_passthrough (c : Clients) (s : Settings) (raw : RawResp)
    (messages : List Message) (model : String) (p : Params) (fam : String)
    (hinf : inferredFamily model = some fam)
    (hav : is_available c fam = true) :
    Except.map (fun r => (r.model, r.provider))
      (generate_completion c s (fun _ => netOf raw) messages model p).1 =
      Except.ok (model, fam) := by
  unfold inferredFamily at hinf
  by_cases h1 : (startswith model "gpt" || startswith model "o1") = true
  · rw [if_pos h1] at hinf
    have hfam : fam = "openai" := by
      simp only [Option.some.injEq] at hinf
      exact hinf.symm
    subst hfam
    have hcl : c.openai_client = true := by simpa [is_available] using hav
    have honce : (generate_completion_once c s (netOf raw) messages model p).1 =
        Except.ok { content := raw.content, tokens := raw.total_tokens,
                    finish_reason := raw.finish_reason, model := model,
                    provider := "openai" } := by
      unfold generate_completion_once
      rw [if_pos (by rw [h1, hcl]; rfl)]
      rw [generate_openai_netOf c raw messages model p hcl]
    have hfull : (generate_completion c s (fun _ => netOf raw) messages model p).1 =
        Except.ok { content := raw.content, tokens := raw.total_tokens,
                    finish_reason := raw.finish_reason, model := model,
                    provider := "openai" } :=
      retryThree_first_ok_fst
        (fun i => generate_completion_once c s (netOf raw) messages model p) _ honce
    rw [hfull]
    rfl
  · have h1f : (startswith model "gpt" || startswith model "o1") = false := by
      rwa [Bool.not_eq_true] at h1
    rw [if_neg h1] at hinf
    by_cases h2 : startswith model "claude" = true
    · rw [if_pos h2] at hinf
      have hfam : fam = "anthropic" := by
        simp only [Option.some.injEq] at hinf
        exact hinf.symm
      subst hfam
      have hcl : c.anthropic_client = true := by simpa [is_available] using hav
      have honce : (generate_completion_once c s (netOf raw) messages model p).1 =
          Except.ok { content := raw.content,
                      tokens := raw.input_tokens + raw.output_tokens,
                      finish_reason := raw.stop_reason, model := model,
                      provider := "anthropic" } := by
        unfold generate_completion_once
        rw [if_neg (by simp [h1f]), if_pos (by rw [h2, hcl]; rfl)]
        rw [generate_anthropic_netOf c raw messages model p hcl]
      have hfull : (generate_completion c s (fun _ => netOf raw) messages model p).1 =
          Except.ok { content := raw.content,
                      tokens := raw.input_tokens + raw.output_tokens,
                      finish_reason := raw.stop_reason, model := model,
                      provider := "anthropic" } :=
        retryThree_first_ok_fst
          (fun i => generate_completion_once c s (netOf raw) messages model p) _ honce
      rw [hfull]
      rfl
    · have h2f : startswith model "claude" = false := by
        rwa [Bool.not_eq_true] at h2
      rw [if_neg h2] at hinf
      by_cases h3 : (startswith model "llama" || startswith model "mixtral"
          || startswith model "gemma") = true
      · rw [if_pos h3] at hinf
        have hfam : fam = "groq" := by
          simp only [Option.some.injEq] at hinf
          exact hinf.symm
        subst hfam
        have hcl : c.groq_client = true := by simpa [is_available] using hav
        have honce : (generate_completion_once c s (netOf raw) messages model p).1 =
            Except.ok { content := raw.content, tokens := raw.total_tokens,
                        finish_reason := raw.finish_reason, model := model,
                        provider := "groq" } := by
          unfold generate_completion_once
          rw [if_neg (by simp [h1f]), if_neg (by simp [h2f]),
            if_pos (by rw [h3, hcl]; rfl)]
          rw [generate_groq_netOf c raw messages model p hcl]
        have hfull : (generate_completion c s (fun _ => netOf raw) messages model p).1 =
            Except.ok { content := raw.content, tokens := raw.total_tokens,
                        finish_reason := raw.finish_reason, model := model,
                        provider := "groq" } :=
          retryThree_first_ok_fst
            (fun i => generate_completion_once c s (netOf raw) messages model p) _ honce
        rw [hfull]
        rfl
      · rw [if_neg h3] at hinf
        simp at hinf

/-- Concrete instance of C3: the Groq default identifier routed to a
registered Groq family passes through unchanged. -/
theorem claim_C3_registered_passthrough_witness :
    Except.map (fun (r : CompletionResult) => (r.model, r.provider))
      (generate_completion clientsGroqOnly defaultSettings (fun _ => netOf sampleResp)
        msgU "llama-3.3-70b-versatile" paramsSample).1 =
      Except.ok ("llama-3.3-70b-versatile", "groq") :=
  claim_C3_registered_passthrough clientsGroqOnly defaultSettings sampleResp msgU
    "llama-3.3-70b-versatile" paramsSample "groq" (by decide) (by decide)

/-- Counterexample to C4 as stated: with every attempt failing with the same
API error, the error surfaced by the retried call is the tenacity
`RetryError` wrapper, which differs from the failure raised in the last
attempt. -/
theorem claim_C4_counterexample :
    (generate_completion clientsGroqOnly defaultSettings netAlwaysDown msgU
        "llama-3.3-70b-versatile" paramsSample).1 =
      Except.error (Err.retryError (Err.apiError "net" 500)) ∧
    (generate_completion_once clientsGroqOnly defaultSettings (netAlwaysDown 2) msgU
        "llama-3.3-70b-versatile" paramsSample).1 =
      Except.error (Err.apiError "net" 500) ∧
    Err.retryError (Err.apiError "net" 500) ≠ Err.apiError "net" 500 :=
  ⟨rfl, rfl, by decide⟩

/-- Claim C4 as amended: when all 3 attempts fail, the caller receives the
final attempt failure wrapped in the retry-exhaustion error (tenacity
`RetryError`), and no partial or default result is returned. -/
theorem claim_C4_retry_exhaustion (c : Clients) (s : Settings) (net : Nat → Net)
    (messages : List Message) (model : String) (p : Params)
    (e0 e1 e2 : Err) (l0 l1 l2 : List ProviderReq)
    (h0 : generate_completion_once c s (net 0) messages model p = (Except.error e0, l0))
    (h1 : generate_completion_once c s (net 1) messages model p = (Except.error e1, l1))
    (h2 : generate_completion_once c s (net 2) messages model p = (Except.error e2, l2)) :
    generate_completion c s net messages model p =
      (Except.error (Err.retryError e2), l0 ++ l1 ++ l2) :=
  retryThree_exhausted (fun i => generate_completion_once c s (net i) messages model p)
    e0 e1 e2 l0 l1 l2 h0 h1 h2

/-- Concrete instance of the amended C4: three failing Groq attempts. -/
theorem claim_C4_retry_exhaustion_witness :
    generate_completion clientsGroqOnly defaultSettings netAlwaysDown msgU
        "llama-3.3-70b-versatile" paramsSample =
      (Except.error (Err.retryError (Err.apiError "net" 500)),
       [groqReq msgU "llama-3.3-70b-versatile" paramsSample] ++
       [groqReq msgU "llama-3.3-70b-versatile" paramsSample] ++
       [groqReq msgU "llama-3.3-70b-versatile" paramsSample]) :=
  claim_C4_retry_exhaustion clientsGroqOnly defaultSettings netAlwaysDown msgU
    "llama-3.3-70b-versatile" paramsSample
    (Err.apiError "net" 500) (Err.apiError "net" 500) (Err.apiError "net" 500)
    [groqReq msgU "llama-3.3-70b-versatile" paramsSample]
    [groqReq msgU "llama-3.3-70b-versatile" paramsSample]
    [groqReq msgU "llama-3.3-70b-versatile" paramsSample]
    rfl rfl rfl

/-- Claim C5: with no provider registered, every call fails with the
no-providers configuration `ValueError` (surfaced through the retry wrapper)
and issues zero outbound network requests. -/
theorem claim_C5_no_providers (s : Settings) (net : Nat → Net)
    (messages : List Message) (model : String) (p : Params) :
    generate_completion clientsNone s net messages model p =
      (Except.error (Err.retryError
        (Err.valueError "No LLM providers initialized. Please check your API keys.")), []) := by
  have honce : ∀ i, generate_completion_once clientsNone s (net i) messages model p =
      (Except.error
        (Err.valueError "No LLM providers initialized. Please check your API keys."), []) := by
    intro i
    unfold generate_completion_once
    simp [clientsNone]
  have h := retryThree_exhausted
    (fun i => generate_completion_once clientsNone s (net i) messages model p)
    _ _ _ _ _ _ (honce 0) (honce 1) (honce 2)
  simpa using h

/-- Counterexample to C6 as stated: an Anthropic-routed call whose caller
supplied a non-empty `**kwargs` bag issues an outbound request carrying no
extra parameters at all. -/
theorem claim_C6_counterexample :
    (generate_completion clientsAnthropicOnly defaultSettings netAlwaysOk msgU
        "claude-3-sonnet-20240229" paramsSample).2 =
      [anthropicReq msgU "claude-3-sonnet-20240229" paramsSample] ∧
    paramsSample.kwargs = [("top_p", "0.9")] ∧
    (anthropicReq msgU "claude-3-sonnet-20240229" paramsSample).extra = [] ∧
    (anthropicReq msgU "claude-3-sonnet-20240229" paramsSample).extra ≠ paramsSample.kwargs :=
  ⟨rfl, rfl, rfl, by decide⟩

/-- Claim C6 as amended: every outbound request of a completion call forwards
`temperature` and `max_tokens` unchanged, and forwards the extra passthrough
parameters unchanged for the OpenAI and Groq families, while the Anthropic
adapter forwards none of them. -/
theorem claim_C6_params_forwarded (c : Clients) (s : Settings) (net : Nat → Net)
    (messages : List Message) (model : String) (p : Params) :
    ∀ req ∈ (generate_completion c s net messages model p).2,
      req.temperature = p.temperature ∧ req.max_tokens = p.max_tokens ∧
      (req.family = "anthropic" → req.extra = []) ∧
      (req.family ≠ "anthropic" → req.extra = p.kwargs) :=
  retryThree_reqs (fun i => generate_completion_once c s (net i) messages model p)
    (fun i => generate_completion_once_reqs c s (net i) messages model p)

/-- Concrete instance of the amended C6: the outbound Groq request of a
direct Groq call carries the caller temperature, max_tokens and kwargs. -/
theorem claim_C6_params_forwarded_witness :
    (groqReq msgU "llama-3.3-70b-versatile" paramsSample).temperature =
      paramsSample.temperature ∧
    (groqReq msgU "llama-3.3-70b-versatile" paramsSample).max_tokens =
      paramsSample.max_tokens ∧
    ((groqReq msgU "llama-3.3-70b-versatile" paramsSample).family = "anthropic" →
      (groqReq msgU "llama-3.3-70b-versatile" paramsSample).extra = []) ∧
    ((groqReq msgU "llama-3.3-70b-versatile" paramsSample).family ≠ "anthropic" →
      (groqReq msgU "llama-3.3-70b-versatile" paramsSample).extra =
        paramsSample.kwargs) :=
  claim_C6_params_forwarded clientsGroqOnly defaultSettings netAlwaysOk msgU
    "llama-3.3-70b-versatile" paramsSample
    (groqReq msgU "llama-3.3-70b-versatile" paramsSample)
    (by
      have he : (generate_completion clientsGroqOnly defaultSettings netAlwaysOk msgU
          "llama-3.3-70b-versatile" paramsSample).2 =
          [groqReq msgU "llama-3.3-70b-versatile" paramsSample] := rfl
      rw [he]
      exact List.mem_singleton_self _)

/-- Counterexample to C7 as stated: with two system-role messages, the
outbound Anthropic request honors the LAST system message, not the first,
and the unhonored system message is dropped from the turn list rather than
kept as an ordinary turn. -/
theorem claim_C7_counterexample :
    (generate_completion clientsAnthropicOnly defaultSettings netAlwaysOk msgTwoSystems
        "claude-3-sonnet-20240229" paramsSample).2 =
      [anthropicReq msgTwoSystems "claude-3-sonnet-20240229" paramsSample] ∧
    (anthropicReq msgTwoSystems "claude-3-sonnet-20240229" paramsSample).system =
      some "S2" ∧
    (anthropicReq msgTwoSystems "claude-3-sonnet-20240229" paramsSample).system ≠
      some "S1" ∧
    (anthropicReq msgTwoSystems "claude-3-sonnet-20240229" paramsSample).messages =
      [{ role := "user", content := "U" }] :=
  ⟨rfl, rfl, by decide, rfl⟩

/-- Claim C7 as amended: when the Anthropic adapter extracts the system
field, the LAST system-role message content becomes the top-level system
field, all system-role messages are excluded from the turn list (the
remaining turns keep their original order), and the call does not fail. -/
theorem claim_C7_last_system_wins (c : Clients) (raw : RawResp)
    (messages : List Message) (model : String) (p : Params)
    (hc : c.anthropic_client = true) :
    (generate_anthropic c (netOf raw) messages model p).2 =
      [{ family := "anthropic", model := model,
         messages := messages.filter (fun m => !(m.role == "system")),
         system := lastSystem messages, temperature := p.temperature,
         max_tokens := p.max_tokens, extra := [] }] ∧
    (generate_anthropic c (netOf raw) messages model p).1 =
      Except.ok { content := raw.content,
                  tokens := raw.input_tokens + raw.output_tokens,
                  finish_reason := raw.stop_reason, model := model,
                  provider := "anthropic" } := by
  have h := generate_anthropic_netOf c raw messages model p hc
  constructor
  · rw [congrArg Prod.snd h]
    unfold anthropicReq
    rw [anthropicSplit_spec]
  · exact congrArg Prod.fst h

/-- Concrete instance of the amended C7: two system messages, `S2` wins. -/
theorem claim_C7_last_system_wins_witness :
    (generate_anthropic clientsAnthropicOnly (netOf sampleResp) msgTwoSystems
        "claude-3-sonnet-20240229" paramsSample).2 =
      [{ family := "anthropic", model := "claude-3-sonnet-20240229",
         messages := msgTwoSystems.filter (fun m => !(m.role == "system")),
         system := lastSystem msgTwoSystems, temperature := paramsSample.temperature,
         max_tokens := paramsSample.max_tokens, extra := [] }] ∧
    (generate_anthropic clientsAnthropicOnly (netOf sampleResp) msgTwoSystems
        "claude-3-sonnet-20240229" paramsSample).1 =
      Except.ok { content := sampleResp.content,
                  tokens := sampleResp.input_tokens + sampleResp.output_tokens,
                  finish_reason := sampleResp.stop_reason,
                  model := "claude-3-sonnet-20240229", provider := "anthropic" } :=
  claim_C7_last_system_wins clientsAnthropicOnly sampleResp msgTwoSystems
    "claude-3-sonnet-20240229" paramsSample rfl

/-- Claim C8: the message list system S, user U1, assistant A1, user U2 sent
to the Anthropic family produces a top-level system field S and a turn list
of exactly the three non-system messages in original order; the call
succeeds with the summed token count. -/
theorem claim_C8_system_extraction :
    (generate_completion clientsAnthropicOnly defaultSettings netAlwaysOk msgSystemFirst
        "claude-3-sonnet-20240229" paramsSample).2 =
      [{ family := "anthropic", model := "claude-3-sonnet-20240229",
         messages := [{ role := "user", content := "U1" },
                      { role := "assistant", content := "A1" },
                      { role := "user", content := "U2" }],
         system := some "S", temperature := 7 / 10, max_tokens := 2000,
         extra := [] }] ∧
    (generate_completion clientsAnthropicOnly defaultSettings netAlwaysOk msgSystemFirst
        "claude-3-sonnet-20240229" paramsSample).1 =
      Except.ok { content := "ok", tokens := 200, finish_reason := "end_turn",
                  model := "claude-3-sonnet-20240229", provider := "anthropic" } :=
  ⟨rfl, rfl⟩

/-- Claim C9: the canonical `tokens` field is the providers own combined
total for OpenAI-shaped and Groq-shaped responses and the exact sum of the
separate input and output counts for Anthropic-shaped responses. -/
theorem claim_C9_token_accounting (c : Clients) (raw : RawResp)
    (messages : List Message) (model : String) (p : Params) :
    (c.anthropic_client = true →
      (generate_anthropic c (netOf raw) messages model p).1 =
        Except.ok { content := raw.content,
                    tokens := raw.input_tokens + raw.output_tokens,
                    finish_reason := raw.stop_reason, model := model,
                    provider := "anthropic" }) ∧
    (c.openai_client = true →
      (generate_openai c (netOf raw) messages model p).1 =
        Except.ok { content := raw.content, tokens := raw.total_tokens,
                    finish_reason := raw.finish_reason, model := model,
                    provider := "openai" }) ∧
    (c.groq_client = true →
      (generate_groq c (netOf raw) messages model p).1 =
        Except.ok { content := raw.content, tokens := raw.total_tokens,
                    finish_reason := raw.finish_reason, model := model,
                    provider := "groq" }) :=
  ⟨fun hc => congrArg Prod.fst (generate_anthropic_netOf c raw messages model p hc),
   fun hc => congrArg Prod.fst (generate_openai_netOf c raw messages model p hc),
   fun hc => congrArg Prod.fst (generate_groq_netOf c raw messages model p hc)⟩

/-- Concrete instance of C9: input 120 and output 80 yield tokens 200. -/
theorem claim_C9_token_accounting_witness :
    (generate_anthropic clientsAnthropicOnly (netOf sampleResp) msgU
        "claude-3-sonnet-20240229" paramsSample).1 =
      Except.ok { content := "ok", tokens := 200, finish_reason := "end_turn",
                  model := "claude-3-sonnet-20240229", provider := "anthropic" } :=
  (claim_C9_token_accounting clientsAnthropicOnly sampleResp msgU
    "claude-3-sonnet-20240229" paramsSample).1 rfl

/-- Claim C10: `is_available` answers `False` for every string other than
the three family names, and for those it mirrors the respective client
handle; it is a total pure function, so it cannot raise and has no side
effects. -/
theorem claim_C10_is_available (c : Clients) (provider : String)
    (h : provider ≠ "openai" ∧ provider ≠ "anthropic" ∧ provider ≠ "groq") :
    is_available c provider = false ∧
    is_available c "openai" = c.openai_client ∧
    is_available c "anthropic" = c.anthropic_client ∧
    is_available c "groq" = c.groq_client := by
  refine ⟨?_, by simp [is_available], by simp [is_available], by simp [is_available]⟩
  simp [is_available, h.1, h.2.1, h.2.2]

/-- Concrete instance of C10 at an unknown provider string. -/
theorem claim_C10_is_available_witness :
    is_available clientsGroqOnly "mistral" = false ∧
    is_available clientsGroqOnly "openai" = clientsGroqOnly.openai_client ∧
    is_available clientsGroqOnly "anthropic" = clientsGroqOnly.anthropic_client ∧
    is_available clientsGroqOnly "groq" = clientsGroqOnly.groq_client :=
  claim_C10_is_available clientsGroqOnly "mistral" ⟨by decide, by decide, by decide⟩

end Synthia
